import Mathlib

set_option autoImplicit false

/-!
Shallow embedding of `arch/arm/mach-shmobile/pm-sh7372.c` (sh7372 power
management support): the per-domain power-transition state machine
(`pd_power_down`, `pd_power_up`), the A3RV/A4LC dependency wrappers
(`pd_power_up_a3rv`, `pd_power_down_a3rv`), the device stop/start adapters
(`sh7372_stop_dev`, `sh7372_start_dev`) and the core standby procedure
(`sh7372_enter_core_standby`).

Memory-mapped register reads are modelled as read streams `Nat → Nat`
(the value returned by the n-th successive read of that register after the
corresponding request write), so a simulated hardware response can be fed
in.  Side effects (register writes, poll counts, delay calls, debug traces)
are recorded in outcome structures.
-/

namespace SH7372

/-- C macro: #define PSTR_RETRIES 100. -/
def PSTR_RETRIES : Nat := 100

/-- C macro: #define PSTR_DELAY_US 10. -/
def PSTR_DELAY_US : Nat := 10

/-- Linux errno EIO (5); the C code returns the negated errno. -/
def EIOErr : Int := 5

/-- The C struct sh7372_pm_domain: the fields this core's transition code reads
(`bit_shift`, `no_debug`, `stay_on`); governor and hooks are external. -/
structure SH7372PmDomain where
  name : String
  bit_shift : Nat
  stay_on : Bool := false
  no_debug : Bool := false
deriving Repr, DecidableEq

/-- Bit mask of a domain: unsigned int mask = 1 << sh7372_pd->bit_shift. -/
def maskOf (d : SH7372PmDomain) : Nat := 1 <<< d.bit_shift

def sh7372_a4lc : SH7372PmDomain := { name := "A4LC", bit_shift := 1 }

def sh7372_a4mp : SH7372PmDomain := { name := "A4MP", bit_shift := 2 }

def sh7372_d4 : SH7372PmDomain := { name := "D4", bit_shift := 3 }

def sh7372_a4r : SH7372PmDomain :=
  { name := "A4R", bit_shift := 5, stay_on := true }

def sh7372_a3rv : SH7372PmDomain := { name := "A3RV", bit_shift := 6 }

def sh7372_a3ri : SH7372PmDomain := { name := "A3RI", bit_shift := 8 }

def sh7372_a3sp : SH7372PmDomain :=
  { name := "A3SP", bit_shift := 11, no_debug := true }

def sh7372_a3sg : SH7372PmDomain := { name := "A3SG", bit_shift := 13 }

/-- Outcome of `pd_power_down`: return value, whether the mask was written
to the power-down request register `SPDCR`, how many polls of `SPDCR` the
retry loop performed, and whether the `no_debug`-guarded `pr_debug` trace
(bit mask and final `PSTR` value) was emitted. -/
structure DownOutcome where
  ret : Int
  wroteSPDCR : Bool
  polls : Nat
  traceEmitted : Bool
deriving Repr, DecidableEq

/-- The `pd_power_down` retry loop
`for (retry_count = PSTR_RETRIES; retry_count; retry_count--)
   { if (!(__raw_readl(SPDCR) & mask)) break; cpu_relax(); }`:
returns the number of `SPDCR` reads performed, starting from read index
`i` with `rc` iterations of budget left. -/
def pd_down_loop (spdcr : Nat → Nat) (mask : Nat) : Nat → Nat → Nat
  | 0, _ => 0
  | rc + 1, i =>
    if spdcr i &&& mask = 0 then 1
    else 1 + pd_down_loop spdcr mask rc (i + 1)

/-- Function pd_power_down: if the `PSTR` status bit is set, write the mask to
`SPDCR` and poll `SPDCR` up to `PSTR_RETRIES` times; emit the guarded
debug trace unless `no_debug`; always return 0. -/
def pd_power_down (d : SH7372PmDomain) (pstr0 : Nat) (spdcr : Nat → Nat) :
    DownOutcome :=
  let mask := maskOf d
  if pstr0 &&& mask ≠ 0 then
    { ret := 0, wroteSPDCR := true,
      polls := pd_down_loop spdcr mask PSTR_RETRIES 0,
      traceEmitted := !d.no_debug }
  else
    { ret := 0, wroteSPDCR := false, polls := 0, traceEmitted := !d.no_debug }

/-- Statistics of one run of the `pd_power_up` polling loop: number of
`SWUCR` reads performed, whether the request bit was observed clear (the
`goto out` path), number of `udelay(PSTR_DELAY_US)` calls, and number of
`cpu_relax()` calls. -/
structure LoopStats where
  polls : Nat
  cleared : Bool
  delays : Nat
  relaxes : Nat
deriving Repr, DecidableEq

/-- The `pd_power_up` polling loop
`for (retry_count = 2 * PSTR_RETRIES; retry_count; retry_count--) {
   if (!(__raw_readl(SWUCR) & mask)) goto out;
   if (retry_count > PSTR_RETRIES) udelay(PSTR_DELAY_US);
   else cpu_relax(); }`
starting at read index `i` with `rc` iterations of budget left. -/
def pd_up_loop (swucr : Nat → Nat) (mask : Nat) : Nat → Nat → LoopStats
  | 0, _ => { polls := 0, cleared := false, delays := 0, relaxes := 0 }
  | rc + 1, i =>
    if swucr i &&& mask = 0 then
      { polls := 1, cleared := true, delays := 0, relaxes := 0 }
    else
      let s := pd_up_loop swucr mask rc (i + 1)
      if rc + 1 > PSTR_RETRIES then
        { polls := s.polls + 1, cleared := s.cleared,
          delays := s.delays + 1, relaxes := s.relaxes }
      else
        { polls := s.polls + 1, cleared := s.cleared,
          delays := s.delays, relaxes := s.relaxes + 1 }

/-- Outcome of `pd_power_up`: return value, whether the mask was written to
the power-up request register `SWUCR`, the polling-loop statistics,
whether the `no_debug`-guarded "Power on" `pr_debug` trace was emitted,
and whether the unconditional `pr_debug` at the `out:` label (bit mask and
final `PSTR` value) was emitted. -/
structure UpOutcome where
  ret : Int
  wroteSWUCR : Bool
  stats : LoopStats
  guardedTrace : Bool
  outTrace : Bool
deriving Repr, DecidableEq

/-- Function pd_power_up: if the `PSTR` status bit is already set, `goto out` with
`ret = 0` (no `SWUCR` write).  Otherwise write the mask to `SWUCR`, poll
`SWUCR` for up to `2 * PSTR_RETRIES` iterations (`goto out` once the bit
reads clear); on exhaustion perform one more fresh `SWUCR` read and set
`ret = -EIO` iff the bit is still set, then emit the guarded trace unless
`no_debug`.  The `out:` trace is emitted on every path. -/
def pd_power_up (d : SH7372PmDomain) (pstr0 : Nat) (swucr : Nat → Nat) :
    UpOutcome :=
  let mask := maskOf d
  if pstr0 &&& mask ≠ 0 then
    { ret := 0, wroteSWUCR := false,
      stats := { polls := 0, cleared := false, delays := 0, relaxes := 0 },
      guardedTrace := false, outTrace := true }
  else
    let s := pd_up_loop swucr mask (2 * PSTR_RETRIES) 0
    if s.cleared then
      { ret := 0, wroteSWUCR := true, stats := s,
        guardedTrace := false, outTrace := true }
    else
      { ret := if swucr (2 * PSTR_RETRIES) &&& mask ≠ 0 then - EIOErr else 0,
        wroteSWUCR := true, stats := s,
        guardedTrace := !d.no_debug, outTrace := true }

/-- Calls the A3RV wrappers make into the power-domain machinery, in
program order.  `a4lcPoweron` stands for the synchronous call
`pm_genpd_poweron(&sh7372_a4lc.genpd)` (the external framework's
synchronous forced power-up of A4LC); `a4lcQueueOff` stands for
`genpd_queue_power_off_work(&sh7372_a4lc.genpd)` (queueing A4LC for the
framework's deferred power-down consideration); `a4lcPowerDown` would
stand for a synchronous `pd_power_down` of A4LC, which the wrappers never
perform. -/
inductive PmEvent where
  | childUp (ret : Int)
  | childDown (ret : Int)
  | a4lcPoweron
  | a4lcQueueOff
  | a4lcPowerDown
deriving Repr, DecidableEq

/-- Outcome of an A3RV wrapper: return value and the sequence of calls
performed before returning to the caller. -/
structure A3rvOutcome where
  ret : Int
  events : List PmEvent
deriving Repr, DecidableEq

/-- Function pd_power_up_a3rv: run `pd_power_up` on A3RV, then unconditionally
`pm_genpd_poweron(&sh7372_a4lc.genpd)`, then return the child's result. -/
def pd_power_up_a3rv (pstr0 : Nat) (swucr : Nat → Nat) : A3rvOutcome :=
  let r := pd_power_up sh7372_a3rv pstr0 swucr
  { ret := r.ret, events := [PmEvent.childUp r.ret, PmEvent.a4lcPoweron] }

/-- Function pd_power_down_a3rv: run `pd_power_down` on A3RV, then
`genpd_queue_power_off_work(&sh7372_a4lc.genpd)`, then return the child's
result. -/
def pd_power_down_a3rv (pstr0 : Nat) (spdcr : Nat → Nat) : A3rvOutcome :=
  let r := pd_power_down sh7372_a3rv pstr0 spdcr
  { ret := r.ret, events := [PmEvent.childDown r.ret, PmEvent.a4lcQueueOff] }

/-- Outcome of `sh7372_stop_dev`: return value, whether the optional
per-device stop hook was invoked, and whether `pm_clk_suspend` was
invoked. -/
structure StopOutcome where
  ret : Int
  hookCalled : Bool
  clkSuspended : Bool
deriving Repr, DecidableEq

/-- Function sh7372_stop_dev: call the optional stop hook first; a non-zero hook
result is returned immediately without suspending clocks; otherwise return
`pm_clk_suspend`'s result.  `hook = some r` models a device whose
`ops.stop` returns `r`; `none` models an absent hook. -/
def sh7372_stop_dev (hook : Option Int) (clkSuspendRet : Int) : StopOutcome :=
  match hook with
  | some r =>
    if r ≠ 0 then { ret := r, hookCalled := true, clkSuspended := false }
    else { ret := clkSuspendRet, hookCalled := true, clkSuspended := true }
  | none => { ret := clkSuspendRet, hookCalled := false, clkSuspended := true }

/-- Outcome of `sh7372_start_dev`: return value, whether the optional
per-device start hook was invoked, and whether `pm_clk_resume` was
invoked. -/
structure StartOutcome where
  ret : Int
  hookCalled : Bool
  clkResumed : Bool
deriving Repr, DecidableEq

/-- Function sh7372_start_dev: call `pm_clk_resume` first; a non-zero result is
returned before the optional start hook runs; otherwise the hook's result
(or 0 when absent) is returned. -/
def sh7372_start_dev (hook : Option Int) (clkResumeRet : Int) : StartOutcome :=
  if clkResumeRet ≠ 0 then
    { ret := clkResumeRet, hookCalled := false, clkResumed := true }
  else
    match hook with
    | some r => { ret := r, hookCalled := true, clkResumed := true }
    | none => { ret := 0, hookCalled := false, clkResumed := true }

/-- Outcome of `sh7372_enter_core_standby`: the arming writes
(`APARMBAREA := 0`, `SBAR := pa(resume)`, `SYSTBCR := 0x10`, marker word
`smfram+0x3c := 0`), and the recovery actions after wake: `restored` is
`some (addr, val)` when the word `val` read from `smfram+0x40` was written
to the (virtual image of the) address `addr` read from `smfram+0x3c`;
`tlbFlushed` records `flush_tlb_all()`; `crRestored` is `some v` when
`set_cr(v)` was called with the value read from `smfram+0x38`; finally
`SYSTBCR := 0` and `SBAR := 0` unconditionally. -/
structure StandbyOutcome where
  aparmbareaWritten : Nat
  sbarArmed : Nat
  systbcrArmed : Nat
  markerClearedBeforeSleep : Bool
  restored : Option (Nat × Nat)
  tlbFlushed : Bool
  crRestored : Option Nat
  systbcrFinal : Nat
  sbarFinal : Nat
deriving Repr, DecidableEq

/-- Procedure sh7372_enter_core_standby: arm the reset vector and standby mode,
clear the scratch marker, sleep; after wake read the marker at
`smfram+0x3c` (`markerAfterWake`): when non-zero, restore the page-table
word (write the value at `smfram+0x40` to the saved address), flush the
whole TLB and restore the control register from `smfram+0x38`; when zero,
do none of that.  Disable standby mode and the reset vector either way. -/
def sh7372_enter_core_standby (resumeAddr : Nat)
    (markerAfterWake v40 v38 : Nat) : StandbyOutcome :=
  { aparmbareaWritten := 0
    sbarArmed := resumeAddr
    systbcrArmed := 0x10
    markerClearedBeforeSleep := true
    restored := if markerAfterWake ≠ 0 then some (markerAfterWake, v40) else none
    tlbFlushed := if markerAfterWake ≠ 0 then true else false
    crRestored := if markerAfterWake ≠ 0 then some v38 else none
    systbcrFinal := 0
    sbarFinal := 0 }


/-!
Helper lemmas about the polling loops and the shape of `pd_power_up`.
-/

/-- The power-up polling loop reports the bit cleared exactly when some
in-budget read observes the bit clear. -/
theorem pd_up_loop_cleared_iff (swucr : Nat → Nat) (mask : Nat) :
    ∀ rc i, ((pd_up_loop swucr mask rc i).cleared = true ↔
      ∃ j, j < rc ∧ swucr (i + j) &&& mask = 0) := by
  intro rc
  induction rc with
  | zero =>
    intro i
    simp [pd_up_loop]
  | succ rc ih =>
    intro i
    by_cases h : swucr i &&& mask = 0
    · have hj : ∃ j, j < rc + 1 ∧ swucr (i + j) &&& mask = 0 :=
        ⟨0, Nat.succ_pos rc, by simpa using h⟩
      simp [pd_up_loop, h, hj]
    · have hiff : ((pd_up_loop swucr mask rc (i + 1)).cleared = true ↔
          ∃ j, j < rc + 1 ∧ swucr (i + j) &&& mask = 0) := by
        rw [ih (i + 1)]
        constructor
        · rintro ⟨j, hj, hc⟩
          refine ⟨j + 1, by omega, ?_⟩
          have hidx : i + (j + 1) = i + 1 + j := by omega
          rw [hidx]
          exact hc
        · rintro ⟨j, hj, hc⟩
          cases j with
          | zero => exact absurd (by simpa using hc) h
          | succ j =>
            refine ⟨j, by omega, ?_⟩
            have hidx : i + 1 + j = i + (j + 1) := by omega
            rw [hidx]
            exact hc
      simp only [pd_up_loop, if_neg h]
      by_cases hrc : rc + 1 > PSTR_RETRIES
      · simpa [hrc] using hiff
      · simpa [hrc] using hiff

/-- When the polling loop reports the bit cleared, at least one read
happened. -/
theorem pd_up_loop_cleared_polls_pos (swucr : Nat → Nat) (mask : Nat) :
    ∀ rc i, (pd_up_loop swucr mask rc i).cleared = true →
      1 ≤ (pd_up_loop swucr mask rc i).polls := by
  intro rc
  induction rc with
  | zero =>
    intro i hcl
    simp [pd_up_loop] at hcl
  | succ rc ih =>
    intro i hcl
    by_cases h : swucr i &&& mask = 0
    · simp [pd_up_loop, h]
    · by_cases hrc : rc + 1 > PSTR_RETRIES <;>
        simp [pd_up_loop, h, hrc]

/-- Accounting of the power-up polling loop: at most `rc` reads happen; a
`udelay` follows each failed read while the remaining budget exceeds
`PSTR_RETRIES`, a `cpu_relax` follows each other failed read. -/
theorem pd_up_loop_stats (swucr : Nat → Nat) (mask : Nat) :
    ∀ rc i, ((pd_up_loop swucr mask rc i).polls ≤ rc ∧
      (pd_up_loop swucr mask rc i).delays =
        min ((pd_up_loop swucr mask rc i).polls -
          (pd_up_loop swucr mask rc i).cleared.toNat) (rc - PSTR_RETRIES) ∧
      (pd_up_loop swucr mask rc i).relaxes =
        ((pd_up_loop swucr mask rc i).polls -
          (pd_up_loop swucr mask rc i).cleared.toNat) -
        (pd_up_loop swucr mask rc i).delays) := by
  intro rc
  induction rc with
  | zero =>
    intro i
    simp [pd_up_loop]
  | succ rc ih =>
    intro i
    obtain ⟨h1, h2, h3⟩ := ih (i + 1)
    by_cases h : swucr i &&& mask = 0
    · refine ⟨?_, ?_, ?_⟩ <;> simp [pd_up_loop, h]
    · by_cases hrc : rc + 1 > PSTR_RETRIES
      · have hpoll : (pd_up_loop swucr mask (rc + 1) i).polls =
            (pd_up_loop swucr mask rc (i + 1)).polls + 1 := by
          simp only [pd_up_loop, if_neg h]
          simp [hrc]
        have hclr : (pd_up_loop swucr mask (rc + 1) i).cleared =
            (pd_up_loop swucr mask rc (i + 1)).cleared := by
          simp only [pd_up_loop, if_neg h]
          simp [hrc]
        have hdel : (pd_up_loop swucr mask (rc + 1) i).delays =
            (pd_up_loop swucr mask rc (i + 1)).delays + 1 := by
          simp only [pd_up_loop, if_neg h]
          simp [hrc]
        have hrel : (pd_up_loop swucr mask (rc + 1) i).relaxes =
            (pd_up_loop swucr mask rc (i + 1)).relaxes := by
          simp only [pd_up_loop, if_neg h]
          simp [hrc]
        rw [hpoll, hclr, hdel, hrel]
        cases hc : (pd_up_loop swucr mask rc (i + 1)).cleared
        · rw [hc] at h2 h3
          simp only [Bool.toNat_false, inf_eq_min] at h2 h3 ⊢
          exact ⟨by omega, by omega, by omega⟩
        · have hp1 : 1 ≤ (pd_up_loop swucr mask rc (i + 1)).polls :=
            pd_up_loop_cleared_polls_pos swucr mask rc (i + 1) hc
          rw [hc] at h2 h3
          simp only [Bool.toNat_true, inf_eq_min] at h2 h3 ⊢
          exact ⟨by omega, by omega, by omega⟩
      · have hpoll : (pd_up_loop swucr mask (rc + 1) i).polls =
            (pd_up_loop swucr mask rc (i + 1)).polls + 1 := by
          simp only [pd_up_loop, if_neg h]
          simp [hrc]
        have hclr : (pd_up_loop swucr mask (rc + 1) i).cleared =
            (pd_up_loop swucr mask rc (i + 1)).cleared := by
          simp only [pd_up_loop, if_neg h]
          simp [hrc]
        have hdel : (pd_up_loop swucr mask (rc + 1) i).delays =
            (pd_up_loop swucr mask rc (i + 1)).delays := by
          simp only [pd_up_loop, if_neg h]
          simp [hrc]
        have hrel : (pd_up_loop swucr mask (rc + 1) i).relaxes =
            (pd_up_loop swucr mask rc (i + 1)).relaxes + 1 := by
          simp only [pd_up_loop, if_neg h]
          simp [hrc]
        rw [hpoll, hclr, hdel, hrel]
        cases hc : (pd_up_loop swucr mask rc (i + 1)).cleared
        · rw [hc] at h2 h3
          simp only [Bool.toNat_false, inf_eq_min] at h2 h3 ⊢
          exact ⟨by omega, by omega, by omega⟩
        · have hp1 : 1 ≤ (pd_up_loop swucr mask rc (i + 1)).polls :=
            pd_up_loop_cleared_polls_pos swucr mask rc (i + 1) hc
          rw [hc] at h2 h3
          simp only [Bool.toNat_true, inf_eq_min] at h2 h3 ⊢
          exact ⟨by omega, by omega, by omega⟩

/-- Shape of `pd_power_up` when the status bit is already set: the early
`goto out` with no write, no polling and no guarded trace. -/
theorem pd_power_up_shape_already (d : SH7372PmDomain) (pstr0 : Nat)
    (swucr : Nat → Nat) (h : pstr0 &&& maskOf d ≠ 0) :
    pd_power_up d pstr0 swucr =
      { ret := 0, wroteSWUCR := false,
        stats := { polls := 0, cleared := false, delays := 0, relaxes := 0 },
        guardedTrace := false, outTrace := true } := by
  simp only [pd_power_up]
  rw [if_pos h]

/-- Shape of `pd_power_up` when the status bit is initially clear: the
request write followed by the polling loop, the fresh post-loop read on
exhaustion, and the guarded trace only on the exhaustion path. -/
theorem pd_power_up_shape_polled (d : SH7372PmDomain) (pstr0 : Nat)
    (swucr : Nat → Nat) (h0 : pstr0 &&& maskOf d = 0) :
    pd_power_up d pstr0 swucr =
      if (pd_up_loop swucr (maskOf d) (2 * PSTR_RETRIES) 0).cleared then
        { ret := 0, wroteSWUCR := true,
          stats := pd_up_loop swucr (maskOf d) (2 * PSTR_RETRIES) 0,
          guardedTrace := false, outTrace := true }
      else
        { ret := if swucr (2 * PSTR_RETRIES) &&& maskOf d ≠ 0 then - EIOErr
                 else 0,
          wroteSWUCR := true,
          stats := pd_up_loop swucr (maskOf d) (2 * PSTR_RETRIES) 0,
          guardedTrace := !d.no_debug, outTrace := true } := by
  simp only [pd_power_up]
  rw [if_neg (not_not_intro h0)]

/-- The statistics recorded by `pd_power_up` on the polled path are those
of one full run of the polling loop. -/
theorem pd_power_up_stats_eq (d : SH7372PmDomain) (pstr0 : Nat)
    (swucr : Nat → Nat) (h0 : pstr0 &&& maskOf d = 0) :
    (pd_power_up d pstr0 swucr).stats =
      pd_up_loop swucr (maskOf d) (2 * PSTR_RETRIES) 0 := by
  rw [pd_power_up_shape_polled d pstr0 swucr h0]
  split <;> rfl

/-!
The claims.
-/

/-- C1: for every domain and every hardware response — including a
simulated power-down-request register whose bit never self-clears within
the 100-iteration polling budget — `pd_power_down` returns success (0);
it never returns an error. -/
theorem pd_power_down_never_errors (d : SH7372PmDomain) (pstr0 : Nat)
    (spdcr : Nat → Nat) : (pd_power_down d pstr0 spdcr).ret = 0 := by
  simp only [pd_power_down]
  split <;> rfl

/-- C2: for a domain whose status bit is initially clear, if the power-up
request bit is still set on every read through the full budget (the 200
in-loop polls and the post-loop read), `pd_power_up` returns `-EIO`; if
the bit self-clears within the 200-poll budget it returns success. -/
theorem pd_power_up_timeout_vs_success (d : SH7372PmDomain) (pstr0 : Nat)
    (swucr : Nat → Nat) (h0 : pstr0 &&& maskOf d = 0) :
    ((∀ i, i ≤ 2 * PSTR_RETRIES → swucr i &&& maskOf d ≠ 0) →
      (pd_power_up d pstr0 swucr).ret = - EIOErr) ∧
    ((∃ i, i < 2 * PSTR_RETRIES ∧ swucr i &&& maskOf d = 0) →
      (pd_power_up d pstr0 swucr).ret = 0) := by
  rw [pd_power_up_shape_polled d pstr0 swucr h0]
  constructor
  · intro hall
    have hnc : (pd_up_loop swucr (maskOf d) (2 * PSTR_RETRIES) 0).cleared =
        false := by
      rw [Bool.eq_false_iff, Ne, pd_up_loop_cleared_iff]
      rintro ⟨j, hj, hc⟩
      rw [Nat.zero_add] at hc
      exact hall j (Nat.le_of_lt hj) hc
    simp [hnc, hall (2 * PSTR_RETRIES) le_rfl]
  · rintro ⟨i, hi, hc⟩
    have hcl : (pd_up_loop swucr (maskOf d) (2 * PSTR_RETRIES) 0).cleared =
        true := by
      rw [pd_up_loop_cleared_iff]
      exact ⟨i, hi, by simpa using hc⟩
    simp [hcl]

theorem pd_power_up_timeout_vs_success_witness :
    (pd_power_up sh7372_a4lc 0 (fun _ => 2)).ret = - EIOErr ∧
    (pd_power_up sh7372_a4lc 0 (fun _ => 0)).ret = 0 :=
  ⟨(pd_power_up_timeout_vs_success sh7372_a4lc 0 (fun _ => 2) (by decide)).1
      (fun i _ => by decide),
   (pd_power_up_timeout_vs_success sh7372_a4lc 0 (fun _ => 0) (by decide)).2
      ⟨0, by decide, by decide⟩⟩

/-- C3: for a domain whose status bit is already set, `pd_power_up`
returns success immediately, without writing the power-up request
register and without a single poll (idempotence on an already-on
domain). -/
theorem pd_power_up_already_on_idempotent (d : SH7372PmDomain) (pstr0 : Nat)
    (swucr : Nat → Nat) (h : pstr0 &&& maskOf d ≠ 0) :
    (pd_power_up d pstr0 swucr).ret = 0 ∧
    (pd_power_up d pstr0 swucr).wroteSWUCR = false ∧
    (pd_power_up d pstr0 swucr).stats.polls = 0 := by
  rw [pd_power_up_shape_already d pstr0 swucr h]
  exact ⟨rfl, rfl, rfl⟩

theorem pd_power_up_already_on_idempotent_witness :
    (pd_power_up sh7372_a4r 0x20 (fun _ => 0)).ret = 0 ∧
    (pd_power_up sh7372_a4r 0x20 (fun _ => 0)).wroteSWUCR = false ∧
    (pd_power_up sh7372_a4r 0x20 (fun _ => 0)).stats.polls = 0 :=
  pd_power_up_already_on_idempotent sh7372_a4r 0x20 (fun _ => 0) (by decide)

/-- C4: the A3RV/A4LC dependency is asymmetric.  On a successful power-up
of A3RV, `pd_power_up_a3rv` synchronously forces A4LC on (the
`pm_genpd_poweron` call is among the events performed before returning)
and never queues it for power-down; on a power-down of A3RV,
`pd_power_down_a3rv` only queues A4LC for deferred power-down
consideration and never powers it on or down synchronously. -/
theorem a3rv_a4lc_dependency_asymmetry (p1 p2 : Nat)
    (swucr spdcr : Nat → Nat)
    (hsucc : (pd_power_up_a3rv p1 swucr).ret = 0) :
    (PmEvent.a4lcPoweron ∈ (pd_power_up_a3rv p1 swucr).events ∧
     PmEvent.a4lcQueueOff ∉ (pd_power_up_a3rv p1 swucr).events ∧
     PmEvent.a4lcPowerDown ∉ (pd_power_up_a3rv p1 swucr).events) ∧
    (PmEvent.a4lcQueueOff ∈ (pd_power_down_a3rv p2 spdcr).events ∧
     PmEvent.a4lcPoweron ∉ (pd_power_down_a3rv p2 spdcr).events ∧
     PmEvent.a4lcPowerDown ∉ (pd_power_down_a3rv p2 spdcr).events) := by
  refine ⟨⟨?_, ?_, ?_⟩, ?_, ?_, ?_⟩ <;>
    simp [pd_power_up_a3rv, pd_power_down_a3rv]

theorem a3rv_a4lc_dependency_asymmetry_witness :
    (PmEvent.a4lcPoweron ∈ (pd_power_up_a3rv 0x40 (fun _ => 0)).events ∧
     PmEvent.a4lcQueueOff ∉ (pd_power_up_a3rv 0x40 (fun _ => 0)).events ∧
     PmEvent.a4lcPowerDown ∉ (pd_power_up_a3rv 0x40 (fun _ => 0)).events) ∧
    (PmEvent.a4lcQueueOff ∈ (pd_power_down_a3rv 0x40 (fun _ => 0)).events ∧
     PmEvent.a4lcPoweron ∉ (pd_power_down_a3rv 0x40 (fun _ => 0)).events ∧
     PmEvent.a4lcPowerDown ∉ (pd_power_down_a3rv 0x40 (fun _ => 0)).events) :=
  a3rv_a4lc_dependency_asymmetry 0x40 0x40 (fun _ => 0) (fun _ => 0)
    (by decide)

/-- C5: in the core standby procedure, after wake: a zero marker word at
`smfram+0x3c` causes no page-table restoration, no TLB flush and no
control-register restoration; a non-zero marker causes a restore using
exactly the saved address, a full TLB flush and a restore of the saved
control-register value before returning. -/
theorem core_standby_marker_gated_restore (resumeAddr m v40 v38 : Nat) :
    (m = 0 →
      (sh7372_enter_core_standby resumeAddr m v40 v38).restored = none ∧
      (sh7372_enter_core_standby resumeAddr m v40 v38).tlbFlushed = false ∧
      (sh7372_enter_core_standby resumeAddr m v40 v38).crRestored = none) ∧
    (m ≠ 0 →
      (sh7372_enter_core_standby resumeAddr m v40 v38).restored =
        some (m, v40) ∧
      (sh7372_enter_core_standby resumeAddr m v40 v38).tlbFlushed = true ∧
      (sh7372_enter_core_standby resumeAddr m v40 v38).crRestored =
        some v38) := by
  constructor
  · intro h
    subst h
    refine ⟨?_, ?_, ?_⟩ <;> simp [sh7372_enter_core_standby]
  · intro h
    refine ⟨?_, ?_, ?_⟩ <;> simp [sh7372_enter_core_standby, h]

theorem core_standby_marker_gated_restore_witness :
    ((sh7372_enter_core_standby 0x40000000 0 0xdead 0xbeef).restored =
       none ∧
     (sh7372_enter_core_standby 0x40000000 0 0xdead 0xbeef).tlbFlushed =
       false ∧
     (sh7372_enter_core_standby 0x40000000 0 0xdead 0xbeef).crRestored =
       none) ∧
    ((sh7372_enter_core_standby 0x40000000 0x4c0f8000 0xdead 0xbeef).restored =
       some (0x4c0f8000, 0xdead) ∧
     (sh7372_enter_core_standby 0x40000000 0x4c0f8000 0xdead 0xbeef).tlbFlushed =
       true ∧
     (sh7372_enter_core_standby 0x40000000 0x4c0f8000 0xdead 0xbeef).crRestored =
       some 0xbeef) :=
  ⟨(core_standby_marker_gated_restore 0x40000000 0 0xdead 0xbeef).1 rfl,
   (core_standby_marker_gated_restore 0x40000000 0x4c0f8000 0xdead 0xbeef).2
     (by decide)⟩

/-- C6 counterexample: a call to `pd_power_up` that succeeds while
`no_debug` is set still emits the unconditional `out:` trace (so the
success trace is not skipped by `no_debug`), and a call that succeeds
with `no_debug` unset emits no `no_debug`-guarded trace at all (the
guarded "Power on" trace is not tied to success). -/
theorem pd_power_up_success_trace_counterexample :
    ((pd_power_up sh7372_a3sp 2048 (fun _ => 0)).ret = 0 ∧
     sh7372_a3sp.no_debug = true ∧
     (pd_power_up sh7372_a3sp 2048 (fun _ => 0)).outTrace = true) ∧
    ((pd_power_up sh7372_a4lc 2 (fun _ => 0)).ret = 0 ∧
     sh7372_a4lc.no_debug = false ∧
     (pd_power_up sh7372_a4lc 2 (fun _ => 0)).guardedTrace = false) := by
  decide

/-- C6 (amended): every call to `pd_power_up` emits the unconditional
diagnostic trace at the `out:` label regardless of `no_debug`; the
`no_debug` flag suppresses only the guarded "Power on" trace, which is
emitted exactly when the status bit was initially clear and the polling
loop exhausted its 200 iterations without observing the request bit
clear (whether the call then returns 0 or `-EIO`). -/
theorem pd_power_up_trace_amended (d : SH7372PmDomain) (pstr0 : Nat)
    (swucr : Nat → Nat) :
    (pd_power_up d pstr0 swucr).outTrace = true ∧
    ((pd_power_up d pstr0 swucr).guardedTrace = true ↔
      (d.no_debug = false ∧ pstr0 &&& maskOf d = 0 ∧
       (pd_up_loop swucr (maskOf d) (2 * PSTR_RETRIES) 0).cleared =
         false)) := by
  by_cases h0 : pstr0 &&& maskOf d = 0
  · rw [pd_power_up_shape_polled d pstr0 swucr h0]
    cases hc : (pd_up_loop swucr (maskOf d) (2 * PSTR_RETRIES) 0).cleared <;>
      cases hn : d.no_debug <;> simp [hc, hn, h0]
  · rw [pd_power_up_shape_already d pstr0 swucr h0]
    simp [h0]

/-- C7: on the polled path the power-up loop performs at most 200 reads;
a 10 µs `udelay` follows each failed read among the first 100 (so at
most 100 delays, a worst case of 100 × 10 µs), and each other failed
read busy-polls with `cpu_relax` and no delay. -/
theorem pd_power_up_polling_budget (d : SH7372PmDomain) (pstr0 : Nat)
    (swucr : Nat → Nat) (h0 : pstr0 &&& maskOf d = 0) :
    (pd_power_up d pstr0 swucr).stats.polls ≤ 2 * PSTR_RETRIES ∧
    (pd_power_up d pstr0 swucr).stats.delays =
      min ((pd_power_up d pstr0 swucr).stats.polls -
        (pd_power_up d pstr0 swucr).stats.cleared.toNat) PSTR_RETRIES ∧
    (pd_power_up d pstr0 swucr).stats.relaxes =
      ((pd_power_up d pstr0 swucr).stats.polls -
        (pd_power_up d pstr0 swucr).stats.cleared.toNat) -
      (pd_power_up d pstr0 swucr).stats.delays ∧
    (pd_power_up d pstr0 swucr).stats.delays * PSTR_DELAY_US ≤
      PSTR_RETRIES * PSTR_DELAY_US := by
  have hst := pd_power_up_stats_eq d pstr0 swucr h0
  obtain ⟨h1, h2, h3⟩ := pd_up_loop_stats swucr (maskOf d) (2 * PSTR_RETRIES) 0
  have hmin : 2 * PSTR_RETRIES - PSTR_RETRIES = PSTR_RETRIES := by omega
  rw [hmin] at h2
  rw [hst]
  refine ⟨h1, h2, h3, ?_⟩
  have hd : (pd_up_loop swucr (maskOf d) (2 * PSTR_RETRIES) 0).delays ≤
      PSTR_RETRIES := by
    rw [h2, inf_eq_min]
    exact min_le_right _ _
  exact Nat.mul_le_mul_right PSTR_DELAY_US hd

theorem pd_power_up_polling_budget_witness :
    (pd_power_up sh7372_a4lc 0 (fun _ => 2)).stats.polls ≤
      2 * PSTR_RETRIES ∧
    (pd_power_up sh7372_a4lc 0 (fun _ => 2)).stats.delays =
      min ((pd_power_up sh7372_a4lc 0 (fun _ => 2)).stats.polls -
        (pd_power_up sh7372_a4lc 0 (fun _ => 2)).stats.cleared.toNat)
        PSTR_RETRIES ∧
    (pd_power_up sh7372_a4lc 0 (fun _ => 2)).stats.relaxes =
      ((pd_power_up sh7372_a4lc 0 (fun _ => 2)).stats.polls -
        (pd_power_up sh7372_a4lc 0 (fun _ => 2)).stats.cleared.toNat) -
      (pd_power_up sh7372_a4lc 0 (fun _ => 2)).stats.delays ∧
    (pd_power_up sh7372_a4lc 0 (fun _ => 2)).stats.delays * PSTR_DELAY_US ≤
      PSTR_RETRIES * PSTR_DELAY_US :=
  pd_power_up_polling_budget sh7372_a4lc 0 (fun _ => 2) (by decide)

/-- C8: `sh7372_stop_dev` invokes the optional stop hook first and a
failing hook's error is returned without suspending clocks, while a
passing or absent hook leads to the clock-suspend result;
`sh7372_start_dev` resumes clocks first and a clock failure is returned
before the hook runs, while on clock success the hook's result (or 0
when absent) is propagated. -/
theorem stop_start_dev_ordering (r c : Int) (hook : Option Int) :
    (r ≠ 0 →
      sh7372_stop_dev (some r) c =
        { ret := r, hookCalled := true, clkSuspended := false }) ∧
    (sh7372_stop_dev (some 0) c =
      { ret := c, hookCalled := true, clkSuspended := true }) ∧
    (sh7372_stop_dev none c =
      { ret := c, hookCalled := false, clkSuspended := true }) ∧
    (c ≠ 0 →
      sh7372_start_dev hook c =
        { ret := c, hookCalled := false, clkResumed := true }) ∧
    (sh7372_start_dev (some r) 0 =
      { ret := r, hookCalled := true, clkResumed := true }) ∧
    (sh7372_start_dev none 0 =
      { ret := 0, hookCalled := false, clkResumed := true }) := by
  refine ⟨fun h => ?_, ?_, ?_, fun h => ?_, ?_, ?_⟩ <;>
    simp [sh7372_stop_dev, sh7372_start_dev, *]

theorem stop_start_dev_ordering_witness :
    sh7372_stop_dev (some (-19)) 0 =
      { ret := -19, hookCalled := true, clkSuspended := false } ∧
    sh7372_start_dev (some 7) (-19) =
      { ret := -19, hookCalled := false, clkResumed := true } :=
  ⟨(stop_start_dev_ordering (-19) 0 (some 7)).1 (by decide),
   (stop_start_dev_ordering 7 (-19) (some 7)).2.2.2.1 (by decide)⟩

/-- C9: `pd_power_up_a3rv` forces the A4LC parent on unconditionally —
for every input the `pm_genpd_poweron` event is performed and the
child's return value is passed through unchanged — and in particular a
run whose child power-up fails with `-EIO` still forces the parent on
and still returns that error. -/
theorem pd_power_up_a3rv_parent_unconditional (pstr0 : Nat)
    (swucr : Nat → Nat) :
    (PmEvent.a4lcPoweron ∈ (pd_power_up_a3rv pstr0 swucr).events ∧
     (pd_power_up_a3rv pstr0 swucr).ret =
       (pd_power_up sh7372_a3rv pstr0 swucr).ret) ∧
    ((pd_power_up_a3rv 0 (fun _ => 0x40)).ret = - EIOErr ∧
     PmEvent.a4lcPoweron ∈ (pd_power_up_a3rv 0 (fun _ => 0x40)).events) := by
  refine ⟨⟨?_, ?_⟩, ?_, ?_⟩
  · simp [pd_power_up_a3rv]
  · simp [pd_power_up_a3rv]
  · decide
  · decide

/-- C10: when the polling budget is exhausted (status bit initially
clear and the request bit set on all 200 in-loop polls), the timeout
decision is made by one additional fresh read of the request register:
if the bit has cleared by that final read, `pd_power_up` returns 0
rather than `-EIO`. -/
theorem pd_power_up_final_read_grace (d : SH7372PmDomain) (pstr0 : Nat)
    (swucr : Nat → Nat) (h0 : pstr0 &&& maskOf d = 0)
    (hall : ∀ i, i < 2 * PSTR_RETRIES → swucr i &&& maskOf d ≠ 0)
    (hfin : swucr (2 * PSTR_RETRIES) &&& maskOf d = 0) :
    (pd_power_up d pstr0 swucr).ret = 0 := by
  have hnc : (pd_up_loop swucr (maskOf d) (2 * PSTR_RETRIES) 0).cleared =
      false := by
    rw [Bool.eq_false_iff, Ne, pd_up_loop_cleared_iff]
    rintro ⟨j, hj, hc⟩
    rw [Nat.zero_add] at hc
    exact hall j hj hc
  rw [pd_power_up_shape_polled d pstr0 swucr h0]
  simp [hnc, hfin]

theorem pd_power_up_final_read_grace_witness :
    (pd_power_up sh7372_a3rv 0
      (fun i => if i < 2 * PSTR_RETRIES then 0x40 else 0)).ret = 0 :=
  pd_power_up_final_read_grace sh7372_a3rv 0
    (fun i => if i < 2 * PSTR_RETRIES then 0x40 else 0)
    (by decide)
    (fun i hi => by simp [hi, maskOf, sh7372_a3rv])
    (by decide)

end SH7372
